import Mathlib

/-!
Verification of the weight-management inventory reconciliation engine.

The repository tracks a shared raw-material pool (`Material`) backing
Shopify product variants.  Counters are stored as `Float` in the Prisma
schema; every claim-relevant computation is addition, subtraction,
multiplication and comparison on those counters, which we model exactly
over `ℚ`.

Each definition below embeds one code path, named after the source
function or route it comes from:

* `createMaterialState`      — createMaterial (services/materialManagement.server.ts)
* `commitLineItem`           — order-created webhook, per material-variant loop body
* `fulfillLineItem`          — webhooks.orders.fulfilled.tsx, per material-variant loop body
* `cancelLineItem`           — webhooks.orders.cancelled.tsx, per material-variant loop body
* `updateMaterialTotalWeight`— updateMaterial (material-edit page save path)
* `adjustStockAction`        — app.materials.$id.tsx manual-adjustment action
* `processMaterialAndInventory`, `updateShopifyInventory`,
  `checkAndUpdateVariantAvailability` — the runningBalance-based service layer
-/

namespace WeightManagement

/-- Movement kinds written by the code (`type` column of `StockMovement`). -/
inductive MovementType where
  | INITIAL
  | ORDER_CREATED
  | FULFILLMENT
  | CANCELLED
  | ADJUSTMENT
  | OUT_OF_STOCK
  deriving DecidableEq

/-- One row of the `StockMovement` table, fields as in prisma/schema.prisma. -/
structure StockMovement where
  type : MovementType
  quantityChange : ℚ
  remainingStock : ℚ
  variantId : Option String
  orderId : Option String
  deriving DecidableEq

/-- Counter fields of the `Material` table (prisma/schema.prisma): `totalWeight`,
`weightCommitted` (default 0) and the optional `threshold`. -/
structure Material where
  totalWeight : ℚ
  weightCommitted : ℚ
  threshold : Option ℚ
  deriving DecidableEq

/-- A material row together with its appended stock-movement history. -/
structure LedgerState where
  material : Material
  movements : List StockMovement
  deriving DecidableEq

/-- createMaterial: a new material starts with `weightCommitted = 0` (schema
default) and one `INITIAL` movement with `quantityChange = totalWeight` and
`remainingStock = totalWeight`. -/
def createMaterialState (totalWeight : ℚ) (threshold : Option ℚ) : LedgerState :=
  { material := { totalWeight := totalWeight, weightCommitted := 0, threshold := threshold },
    movements := [{ type := .INITIAL, quantityChange := totalWeight,
                    remainingStock := totalWeight, variantId := none, orderId := none }] }

/-- Order-created webhook, inner loop body: `weightToCommit =
consumptionRequirement * quantity`; if `weightCommitted + weightToCommit >
totalWeight` the item is rejected by throwing `Insufficient weight available`
(no movement is written); otherwise `weightCommitted` is raised and one
`ORDER_CREATED` movement with `quantityChange = weightToCommit` and
`remainingStock = totalWeight` is created. -/
def commitLineItem (s : LedgerState) (vid : String) (oid : Option String)
    (cr q : ℚ) : Except String LedgerState :=
  let weightToCommit := cr * q
  let newCommittedWeight := s.material.weightCommitted + weightToCommit
  if s.material.totalWeight < newCommittedWeight then
    .error "Insufficient weight available"
  else
    .ok { material := { s.material with weightCommitted := newCommittedWeight },
          movements := s.movements ++
            [{ type := .ORDER_CREATED, quantityChange := weightToCommit,
               remainingStock := s.material.totalWeight,
               variantId := some vid, orderId := oid }] }

/-- Order-created webhook, catch wrapper: a thrown error puts the item on the
`skippedItems` list and leaves all persistent state untouched; the `Bool`
records whether the item was processed (`true`) or skipped (`false`). -/
def orderCreatedStep (s : LedgerState) (vid : String) (oid : Option String)
    (cr q : ℚ) : LedgerState × Bool :=
  match commitLineItem s vid oid cr q with
  | .ok s' => (s', true)
  | .error _ => (s, false)

/-- Fulfilled webhook, inner loop body: `weightToDeduct = consumptionRequirement
* quantity`; `totalWeight` is lowered unconditionally (no check of any kind and
`weightCommitted` is not touched) and one `FULFILLMENT` movement with
`quantityChange = -weightToDeduct` and `remainingStock = totalWeight -
weightToDeduct` is created. -/
def fulfillLineItem (s : LedgerState) (vid : String) (oid : Option String)
    (cr q : ℚ) : LedgerState :=
  let weightToDeduct := cr * q
  { material := { s.material with totalWeight := s.material.totalWeight - weightToDeduct },
    movements := s.movements ++
      [{ type := .FULFILLMENT, quantityChange := -weightToDeduct,
         remainingStock := s.material.totalWeight - weightToDeduct,
         variantId := some vid, orderId := oid }] }

/-- Cancelled webhook, inner loop body: `weightToRestore =
consumptionRequirement * quantity`; `weightCommitted` is lowered
unconditionally (no negativity check, `totalWeight` untouched) and one
`CANCELLED` movement with `quantityChange = +weightToRestore` and
`remainingStock = totalWeight` is created. -/
def cancelLineItem (s : LedgerState) (vid : String) (oid : Option String)
    (cr q : ℚ) : LedgerState :=
  let weightToRestore := cr * q
  { material := { s.material with weightCommitted := s.material.weightCommitted - weightToRestore },
    movements := s.movements ++
      [{ type := .CANCELLED, quantityChange := weightToRestore,
         remainingStock := s.material.totalWeight,
         variantId := some vid, orderId := oid }] }

/-- updateMaterial (material-edit save path), the `tx.material.update` call:
`totalWeight` is set to the submitted value unconditionally — there is no
comparison against `weightCommitted` and no stock movement is created. -/
def updateMaterialTotalWeight (s : LedgerState) (newTotal : ℚ) : LedgerState :=
  { s with material := { s.material with totalWeight := newTotal } }

/-- app.materials.$id.tsx manual-adjustment action: a zero quantity fails the
`!quantity` form check; for a negative delta whose magnitude exceeds
`totalWeight - weightCommitted` the request is rejected with
`Cannot reduce total weight below committed amount` before any mutation;
otherwise `totalWeight += delta` and one `ADJUSTMENT` movement with
`quantityChange = delta` and `remainingStock = totalWeight + delta` is
created. -/
def adjustStockAction (s : LedgerState) (vid : Option String) (delta : ℚ) :
    Except String LedgerState :=
  if delta = 0 then
    .error "Invalid form data"
  else if delta < 0 ∧ s.material.totalWeight - s.material.weightCommitted < |delta| then
    .error "Cannot reduce total weight below committed amount"
  else
    .ok { material := { s.material with totalWeight := s.material.totalWeight + delta },
          movements := s.movements ++
            [{ type := .ADJUSTMENT, quantityChange := delta,
               remainingStock := s.material.totalWeight + delta,
               variantId := vid, orderId := none }] }

/-- Manual-adjustment action seen from the client: a rejected request mutates
nothing. -/
def adjustStockStep (s : LedgerState) (vid : Option String) (delta : ℚ) :
    LedgerState × Bool :=
  match adjustStockAction s vid delta with
  | .ok s' => (s', true)
  | .error _ => (s, false)

/-- The spec's ledger invariant `0 <= weightCommitted <= totalWeight`. -/
def invariantHolds (s : LedgerState) : Prop :=
  0 ≤ s.material.weightCommitted ∧ s.material.weightCommitted ≤ s.material.totalWeight

instance (s : LedgerState) : Decidable (invariantHolds s) := by
  unfold invariantHolds
  exact instDecidableAnd

/-! ## The runningBalance-based service layer (services/materialManagement.server.ts) -/

/-- One `MaterialVariant` link as read by the service layer. -/
structure RBVariant where
  variantId : String
  consumptionRequirement : ℚ
  deriving DecidableEq

/-- A material as read by the service layer: the single `runningBalance`
counter plus the linked variants. -/
structure RBMaterial where
  runningBalance : ℚ
  variants : List RBVariant
  deriving DecidableEq

/-- The `type` parameter accepted by `processMaterialAndInventory`. -/
inductive PMIType where
  | FULFILLMENT
  | CANCELLED
  | ADJUSTMENT
  deriving DecidableEq

/-- The `type` string is stored verbatim in the movement row. -/
def PMIType.toMovementType : PMIType → MovementType
  | .FULFILLMENT => .FULFILLMENT
  | .CANCELLED => .CANCELLED
  | .ADJUSTMENT => .ADJUSTMENT

/-! ### Catalog client model for updateShopifyInventory

`updateShopifyInventory` makes four kinds of GraphQL calls through the injected
`admin` client.  We model the client by the distinctions the code actually
makes on each response; `thrown` covers both a client exception and a
response whose `errors` field is set (the code converts the latter into a
thrown error at the same point of control flow). -/

/-- STEP 1 response (variant + location query): the code throws when the
inventory item id or the location is missing. -/
inductive VariantQueryRes where
  | thrown (msg : String)
  | noInventoryItem
  | noLocation
  | found
  deriving DecidableEq

/-- STEP 2 response (inventory-level query): an absent level triggers STEP 3;
a present level carries an optional `available` quantity (defaulted to 0). -/
inductive LevelQueryRes where
  | thrown (msg : String)
  | gqlErrors (msg : String)
  | absent
  | present (quantity : Option Int)
  deriving DecidableEq

/-- STEP 3 response (inventoryActivate): user errors saying the level already
exists are treated as success, every other user error is thrown. -/
inductive ActivateRes where
  | thrown (msg : String)
  | gqlErrors (msg : String)
  | alreadyExists
  | otherUserErrors (msg : String)
  | created
  deriving DecidableEq

/-- STEP 4 response for a single set-quantity attempt: `userErrors` carries
whether some user error message contains `concurrent`. -/
inductive SetQuantityRes where
  | thrown (msg : String)
  | userErrors (concurrent : Bool) (msg : String)
  | ok
  deriving DecidableEq

/-- One injected GraphQL client behaviour: a fixed response per query kind and
one response per set-quantity attempt (indexed by the attempt number). -/
structure CatalogClient where
  variantQuery : VariantQueryRes
  levelQuery : LevelQueryRes
  activate : ActivateRes
  setQuantity : Nat → SetQuantityRes

/-- What the STEP 4 retry loop did: how many set-quantity attempts ran, the
backoff sleeps performed (milliseconds, in order) and the outcome. -/
structure AttemptTrace where
  attempts : Nat
  backoffsMs : List Nat
  result : Except String Unit

/-- `const MAX_RETRIES = 3`. -/
def MAX_RETRIES : Nat := 3

/-- The STEP 4 `while (retryCount < MAX_RETRIES && !success)` loop.  Each
iteration issues one set-quantity call; `retryCount` is also the 0-based index
of the current attempt.  A concurrent user error with attempts remaining
sleeps `2 ^ retryCount * 1000` ms and retries; every other failure is thrown,
lands in the loop's catch block and — when `retryCount < MAX_RETRIES - 1` —
is *also* retried, after `retryCount++` and a sleep of the new
`2 ^ retryCount * 1000` ms; otherwise the error is rethrown.  The loop mutates
`retryCount` by exactly one per iteration, so fuel `MAX_RETRIES` suffices and
the fuel-exhausted branch is unreachable from `setQuantityLoop`. -/
def setQuantityLoopGo (client : Nat → SetQuantityRes) :
    Nat → Nat → List Nat → AttemptTrace
  | 0, retryCount, backoffs =>
    { attempts := retryCount, backoffsMs := backoffs, result := .error "loop fuel exhausted" }
  | fuel + 1, retryCount, backoffs =>
    match client retryCount with
    | .ok =>
      { attempts := retryCount + 1, backoffsMs := backoffs, result := .ok () }
    | .userErrors concurrent msg =>
      if concurrent = true ∧ retryCount < MAX_RETRIES - 1 then
        setQuantityLoopGo client fuel (retryCount + 1) (backoffs ++ [2 ^ retryCount * 1000])
      else if MAX_RETRIES - 1 ≤ retryCount then
        { attempts := retryCount + 1, backoffsMs := backoffs,
          result := .error ("Failed to set quantity: " ++ msg) }
      else
        setQuantityLoopGo client fuel (retryCount + 1) (backoffs ++ [2 ^ (retryCount + 1) * 1000])
    | .thrown msg =>
      if MAX_RETRIES - 1 ≤ retryCount then
        { attempts := retryCount + 1, backoffsMs := backoffs, result := .error msg }
      else
        setQuantityLoopGo client fuel (retryCount + 1) (backoffs ++ [2 ^ (retryCount + 1) * 1000])

/-- STEP 4 entry: `retryCount = 0`, no sleeps yet. -/
def setQuantityLoop (client : Nat → SetQuantityRes) : AttemptTrace :=
  setQuantityLoopGo client MAX_RETRIES 0 []

/-- The body of `updateShopifyInventory` up to its outer catch: steps 1–3
throw immediately on failure (no retry); step 4 runs the retry loop. -/
def updateShopifyInventoryCore (client : CatalogClient) : Except String AttemptTrace :=
  match client.variantQuery with
  | .thrown msg => .error msg
  | .noInventoryItem => .error "No inventory item found for variant"
  | .noLocation => .error "No location found for shop"
  | .found =>
    match client.levelQuery with
    | .thrown msg => .error msg
    | .gqlErrors msg => .error ("GraphQL errors: " ++ msg)
    | .absent =>
      match client.activate with
      | .thrown msg => .error msg
      | .gqlErrors msg => .error ("GraphQL errors: " ++ msg)
      | .otherUserErrors msg => .error ("Failed to activate inventory: " ++ msg)
      | .alreadyExists => runSetQuantity client
      | .created => runSetQuantity client
    | .present _ => runSetQuantity client
where
  runSetQuantity (client : CatalogClient) : Except String AttemptTrace :=
    let t := setQuantityLoop client.setQuantity
    match t.result with
    | .ok _ => .ok t
    | .error msg => .error msg

/-- Return type of `updateShopifyInventory` (the TS `ShopifyInventoryResult`). -/
structure ShopifyInventoryResult where
  inventoryUpdated : Bool
  isOutOfStock : Bool
  error : Option String
  deriving DecidableEq

/-- `updateShopifyInventory`: the whole body sits in one try/catch, so the
function always returns a `ShopifyInventoryResult`; success yields
`inventoryUpdated = true` and failure `inventoryUpdated = false` with the
error, the `isOutOfStock` argument being echoed back in both cases. -/
def updateShopifyInventory (client : CatalogClient) (isOutOfStock : Bool) :
    ShopifyInventoryResult :=
  match updateShopifyInventoryCore client with
  | .ok _ => { inventoryUpdated := true, isOutOfStock := isOutOfStock, error := none }
  | .error msg => { inventoryUpdated := false, isOutOfStock := isOutOfStock, error := some msg }

/-- Result of one `processMaterialAndInventory` call: the new running balance,
the movement row written, and the spread-in `ShopifyInventoryResult` fields. -/
structure PMIOutcome where
  runningBalance : ℚ
  movement : StockMovement
  inventoryUpdated : Bool
  isOutOfStock : Bool
  error : Option String
  deriving DecidableEq

/-- `const quantityChange = type === 'CANCELLED' ? quantity : -quantity`. -/
def pmiQuantityChange (ty : PMIType) (quantity : ℚ) : ℚ :=
  match ty with
  | .CANCELLED => quantity
  | _ => -quantity

/-- `processMaterialAndInventory`: looks up the material and the variant link
(throwing `Material not found` / `Variant not linked to material`), computes
`quantityChange = (type == CANCELLED ? quantity : -quantity)` and `newBalance
= runningBalance + quantityChange * consumptionRequirement`.  A negative
`newBalance` keeps the balance, writes an `OUT_OF_STOCK` movement with
`quantityChange = 0`, and calls the catalog with `isOutOfStock = true`;
otherwise the balance is updated, a movement of the given type is written and
the catalog is called with `isOutOfStock = (newBalance <
consumptionRequirement)`.  The catalog call never throws, so its failure
never aborts the transaction. -/
def processMaterialAndInventory (materialOpt : Option RBMaterial) (variantId : String)
    (quantity : ℚ) (ty : PMIType) (client : CatalogClient) : Except String PMIOutcome :=
  match materialOpt with
  | none => .error "Material not found"
  | some material =>
    match material.variants.find? (fun v => v.variantId == variantId) with
    | none => .error "Variant not linked to material"
    | some variant =>
      let quantityChange := pmiQuantityChange ty quantity
      let newBalance := material.runningBalance + quantityChange * variant.consumptionRequirement
      if newBalance < 0 then
        let r := updateShopifyInventory client true
        .ok { runningBalance := material.runningBalance,
              movement := { type := .OUT_OF_STOCK, quantityChange := 0,
                            remainingStock := material.runningBalance,
                            variantId := some variantId, orderId := none },
              inventoryUpdated := r.inventoryUpdated, isOutOfStock := r.isOutOfStock,
              error := r.error }
      else
        let r := updateShopifyInventory client
          (if newBalance < variant.consumptionRequirement then true else false)
        .ok { runningBalance := newBalance,
              movement := { type := ty.toMovementType,
                            quantityChange := quantityChange * variant.consumptionRequirement,
                            remainingStock := newBalance,
                            variantId := some variantId, orderId := none },
              inventoryUpdated := r.inventoryUpdated, isOutOfStock := r.isOutOfStock,
              error := r.error }

/-- `checkAndUpdateVariantAvailability`: for *each* variant linked to the
material it pushes `(variantId, runningBalance >= consumptionRequirement)` to
the catalog. -/
def checkAndUpdateVariantAvailability (material : RBMaterial) : List (String × Bool) :=
  material.variants.map
    (fun v => (v.variantId,
      if v.consumptionRequirement ≤ material.runningBalance then true else false))

/-- Fulfilled webhook, availability push for one processed line item: only
when the *updated* `totalWeight` is at or below `threshold || 0` does it push
`availableForSale = false`, and only for the triggering variant. -/
def fulfilledWebhookPushes (s : LedgerState) (vid : String) (cr q : ℚ) :
    List (String × Bool) :=
  let updated := fulfillLineItem s vid none cr q
  if updated.material.totalWeight ≤ updated.material.threshold.getD 0 then
    [(vid, false)]
  else
    []

/-! ## Traces over the webhook/adjustment operations -/

/-- One ledger operation in the `totalWeight`/`weightCommitted` model, with
the arguments each code path receives. -/
inductive LedgerOp where
  | commit (vid : String) (oid : Option String) (cr q : ℚ)
  | fulfill (vid : String) (oid : Option String) (cr q : ℚ)
  | cancel (vid : String) (oid : Option String) (cr q : ℚ)
  | adjust (vid : Option String) (delta : ℚ)
  deriving DecidableEq

/-- Process one operation through the corresponding handler, keeping the
state unchanged when the handler rejects. -/
def applyOp (s : LedgerState) : LedgerOp → LedgerState
  | .commit vid oid cr q => (orderCreatedStep s vid oid cr q).1
  | .fulfill vid oid cr q => fulfillLineItem s vid oid cr q
  | .cancel vid oid cr q => cancelLineItem s vid oid cr q
  | .adjust vid delta => (adjustStockStep s vid delta).1

/-- Run a trace of operations. -/
def runOps (s : LedgerState) (ops : List LedgerOp) : LedgerState :=
  ops.foldl applyOp s

/-- The conservation procedure exactly as claim C5 words it: add each
movement's `quantityChange` to the counter its kind affects (`INITIAL`,
`FULFILLMENT`, `ADJUSTMENT` affect `totalWeight`; `ORDER_CREATED`,
`CANCELLED` affect `weightCommitted`; `OUT_OF_STOCK` affects none),
accumulating `(totalWeight, weightCommitted)`. -/
def sumMovement (acc : ℚ × ℚ) (mv : StockMovement) : ℚ × ℚ :=
  match mv.type with
  | .INITIAL => (acc.1 + mv.quantityChange, acc.2)
  | .FULFILLMENT => (acc.1 + mv.quantityChange, acc.2)
  | .ADJUSTMENT => (acc.1 + mv.quantityChange, acc.2)
  | .ORDER_CREATED => (acc.1, acc.2 + mv.quantityChange)
  | .CANCELLED => (acc.1, acc.2 + mv.quantityChange)
  | .OUT_OF_STOCK => acc

/-- Summation over a whole movement history, claim-C5 style. -/
def sumMovements (l : List StockMovement) : ℚ × ℚ :=
  l.foldl sumMovement (0, 0)

/-- Replay in which a `CANCELLED` movement is applied with the *opposite*
sign of its stored `quantityChange` — the code stores `+delta` while the
counter decreases by `delta`. -/
def replayMovement (acc : ℚ × ℚ) (mv : StockMovement) : ℚ × ℚ :=
  match mv.type with
  | .INITIAL => (acc.1 + mv.quantityChange, acc.2)
  | .FULFILLMENT => (acc.1 + mv.quantityChange, acc.2)
  | .ADJUSTMENT => (acc.1 + mv.quantityChange, acc.2)
  | .ORDER_CREATED => (acc.1, acc.2 + mv.quantityChange)
  | .CANCELLED => (acc.1, acc.2 - mv.quantityChange)
  | .OUT_OF_STOCK => acc

/-- Sign-corrected replay over a whole movement history. -/
def replayMovements (l : List StockMovement) : ℚ × ℚ :=
  l.foldl replayMovement (0, 0)

/-- One line-item request of the order-created webhook. -/
structure CommitItem where
  vid : String
  oid : Option String
  cr : ℚ
  q : ℚ
  deriving DecidableEq

/-! ## Concrete fixtures (spec §8 scenarios) -/

/-- Scenario A/B/C material after the first paid order: `totalWeight = 100`,
`weightCommitted = 75`, `threshold = 10` (movement history elided). -/
def scenarioCommitted : LedgerState :=
  { material := { totalWeight := 100, weightCommitted := 75, threshold := some 10 },
    movements := [] }

/-- A freshly registered material: `totalWeight = 100`, `threshold = 10`. -/
def scenarioFresh : LedgerState := createMaterialState 100 (some 10)

/-- Scenario D material: `totalWeight = 100`, `weightCommitted = 80`. -/
def scenarioD : LedgerState :=
  { material := { totalWeight := 100, weightCommitted := 80, threshold := none },
    movements := [] }

/-- A material with nothing committed: `totalWeight = 100`,
`weightCommitted = 0`. -/
def committedZero : LedgerState :=
  { material := { totalWeight := 100, weightCommitted := 0, threshold := none },
    movements := [] }

/-! ## Theorems -/

/-- C1 counterexample: starting from a fresh material with `totalWeight = 100`,
an accepted commit of 75 keeps the invariant, but the subsequent release of 75
(the fulfilled webhook, which is accepted unconditionally) leaves
`weightCommitted = 75 > totalWeight = 25`, so the invariant does *not* hold
after every individually accepted operation. -/
theorem invariant_broken_by_release_counterexample :
    invariantHolds scenarioFresh ∧
    (orderCreatedStep scenarioFresh "V" none 5 15).2 = true ∧
    invariantHolds (orderCreatedStep scenarioFresh "V" none 5 15).1 ∧
    ¬ invariantHolds
        (fulfillLineItem (orderCreatedStep scenarioFresh "V" none 5 15).1 "V" none 5 15) := by
  refine ⟨?_, ?_, ?_, ?_⟩ <;>
    norm_num [invariantHolds, scenarioFresh, createMaterialState, orderCreatedStep,
      commitLineItem, fulfillLineItem]

/-- C1 amended: only the commit path is guarded, and sequences of commit
requests with nonnegative consumption requirement and quantity (each either
accepted or skipped) do preserve `0 ≤ weightCommitted ≤ totalWeight`; the
release, restore and material-edit paths are accepted unconditionally and can
break the invariant. -/
theorem commit_sequences_preserve_invariant (s : LedgerState) (items : List CommitItem)
    (hinv : invariantHolds s) (hpos : ∀ it ∈ items, 0 ≤ it.cr ∧ 0 ≤ it.q) :
    invariantHolds
      (items.foldl (fun t it => (orderCreatedStep t it.vid it.oid it.cr it.q).1) s) := by
  induction items generalizing s with
  | nil => exact hinv
  | cons it rest ih =>
    have hit := hpos it (by simp)
    have hstep : invariantHolds (orderCreatedStep s it.vid it.oid it.cr it.q).1 := by
      by_cases hc : s.material.totalWeight < s.material.weightCommitted + it.cr * it.q
      · simpa [orderCreatedStep, commitLineItem, hc] using hinv
      · simp only [orderCreatedStep, commitLineItem, if_neg hc]
        exact ⟨add_nonneg hinv.1 (mul_nonneg hit.1 hit.2), not_lt.mp hc⟩
    simpa using ih _ hstep (fun x hx => hpos x (by simp [hx]))

/-- C1 witness: scenario A run through the commit handler — commit of 75
accepted, commit of 30 skipped — ends with the invariant intact. -/
theorem commit_sequences_preserve_invariant_witness :
    invariantHolds scenarioFresh ∧
    invariantHolds
      (([⟨"V", none, 5, 15⟩, ⟨"V", none, 5, 6⟩] : List CommitItem).foldl
        (fun t it => (orderCreatedStep t it.vid it.oid it.cr it.q).1) scenarioFresh) := by
  have h0 : invariantHolds scenarioFresh := by
    norm_num [invariantHolds, scenarioFresh, createMaterialState]
  refine ⟨h0, commit_sequences_preserve_invariant scenarioFresh _ h0 ?_⟩
  intro it hit
  simp only [List.mem_cons, List.mem_singleton] at hit
  rcases hit with h | h | h
  · subst h; constructor <;> norm_num
  · subst h; constructor <;> norm_num
  · cases h

/-- C2: the fulfilled-webhook release path evaluated at the failing input.
With `totalWeight = 100`, `weightCommitted = 75`, releasing 75 lowers
`totalWeight` to 25 but leaves `weightCommitted` at 75 (the claim and the
repository's own commit_weight.md require both counters to drop), and a
release of 200 is accepted as well, storing `totalWeight = -100` instead of
rejecting. -/
theorem release_ignores_committed_and_never_rejects :
    (fulfillLineItem scenarioCommitted "V" none 5 15).material.totalWeight = 25 ∧
    (fulfillLineItem scenarioCommitted "V" none 5 15).material.weightCommitted = 75 ∧
    (fulfillLineItem scenarioCommitted "V" none 5 40).material.totalWeight = -100 ∧
    (fulfillLineItem scenarioCommitted "V" none 5 40).material.weightCommitted = 75 := by
  refine ⟨?_, ?_, ?_, ?_⟩ <;> norm_num [fulfillLineItem, scenarioCommitted]

/-- C4 counterexample: cancelling 75 against a material with
`weightCommitted = 0` is not rejected — the cancelled webhook stores
`weightCommitted = -75` and still records a `CANCELLED` movement. -/
theorem restore_goes_negative_counterexample :
    (cancelLineItem committedZero "V" none 5 15).material.weightCommitted = -75 ∧
    (cancelLineItem committedZero "V" none 5 15).movements =
      [{ type := .CANCELLED, quantityChange := 75, remainingStock := 100,
         variantId := some "V", orderId := none }] := by
  constructor <;> norm_num [cancelLineItem, committedZero]

/-- C4 amended: the restore path decrements `weightCommitted` unconditionally
— there is no negativity check and no rejection path; when the delta exceeds
the committed amount the negative value is stored, and one `CANCELLED`
movement with `quantityChange = +delta` is always recorded. -/
theorem restore_unconditional (s : LedgerState) (vid : String) (oid : Option String)
    (cr q : ℚ) :
    (cancelLineItem s vid oid cr q).material.weightCommitted
      = s.material.weightCommitted - cr * q ∧
    (cancelLineItem s vid oid cr q).material.totalWeight = s.material.totalWeight ∧
    (cancelLineItem s vid oid cr q).movements
      = s.movements ++
        [{ type := .CANCELLED, quantityChange := cr * q,
           remainingStock := s.material.totalWeight,
           variantId := some vid, orderId := oid }] :=
  ⟨rfl, rfl, rfl⟩

/-- A catalog client whose calls all succeed (inventory level present,
set-quantity succeeds at the first attempt). -/
def okCatalogClient : CatalogClient :=
  { variantQuery := .found, levelQuery := .present (some 0), activate := .created,
    setQuantity := fun _ => .ok }

/-- C3 counterexample: scenario A's second order (commit of 30 against
`totalWeight = 100`, `weightCommitted = 75`) is skipped with the counters
unchanged, but *no* movement of any kind is recorded — the movement list
stays empty instead of gaining an `OUT_OF_STOCK` row with
`quantityChange = 0`. -/
theorem commit_overflow_records_no_movement_counterexample :
    (orderCreatedStep scenarioCommitted "V" none 5 6).1 = scenarioCommitted ∧
    (orderCreatedStep scenarioCommitted "V" none 5 6).2 = false ∧
    (orderCreatedStep scenarioCommitted "V" none 5 6).1.movements = [] := by
  refine ⟨?_, ?_, ?_⟩ <;>
    norm_num [orderCreatedStep, commitLineItem, scenarioCommitted]

/-- C3 amended: a commit whose resulting `weightCommitted` would exceed
`totalWeight` leaves the state untouched and throws `Insufficient weight
available` (the line item lands on the skipped list, no movement row); the
zero-effect `OUT_OF_STOCK` movement exists only in
`processMaterialAndInventory`, whose `runningBalance` update going negative
keeps the balance and records `OUT_OF_STOCK` with `quantityChange = 0`. -/
theorem commit_overflow_amended (s : LedgerState) (vid : String) (oid : Option String)
    (cr q : ℚ) (h : s.material.totalWeight < s.material.weightCommitted + cr * q) :
    commitLineItem s vid oid cr q = .error "Insufficient weight available" ∧
    orderCreatedStep s vid oid cr q = (s, false) ∧
    ∀ (material : RBMaterial) (variant : RBVariant) (q' : ℚ) (ty : PMIType)
      (client : CatalogClient),
      material.variants.find? (fun v => v.variantId == variant.variantId) = some variant →
      material.runningBalance + pmiQuantityChange ty q' * variant.consumptionRequirement < 0 →
      processMaterialAndInventory (some material) variant.variantId q' ty client =
        .ok { runningBalance := material.runningBalance,
              movement := { type := .OUT_OF_STOCK, quantityChange := 0,
                            remainingStock := material.runningBalance,
                            variantId := some variant.variantId, orderId := none },
              inventoryUpdated := (updateShopifyInventory client true).inventoryUpdated,
              isOutOfStock := (updateShopifyInventory client true).isOutOfStock,
              error := (updateShopifyInventory client true).error } := by
  refine ⟨by simp [commitLineItem, h], by simp [orderCreatedStep, commitLineItem, h], ?_⟩
  intro material variant q' ty client hfind hneg
  simp [processMaterialAndInventory, hfind, hneg]

/-- C3 witness: the commit rejection at scenario A's numbers, and the
`OUT_OF_STOCK` zero movement of the service path at `runningBalance = 10`,
consumption 5, fulfilled quantity 3. -/
theorem commit_overflow_amended_witness :
    commitLineItem scenarioCommitted "V" none 5 6 = .error "Insufficient weight available" ∧
    (processMaterialAndInventory (some ⟨10, [⟨"A", 5⟩]⟩) "A" 3 .FULFILLMENT okCatalogClient).map
        (fun out => (out.movement.type, out.movement.quantityChange, out.runningBalance))
      = .ok (.OUT_OF_STOCK, 0, 10) := by
  have h := commit_overflow_amended scenarioCommitted "V" none 5 6
    (by norm_num [scenarioCommitted])
  refine ⟨h.1, ?_⟩
  rw [h.2.2 ⟨10, [⟨"A", 5⟩]⟩ ⟨"A", 5⟩ 3 .FULFILLMENT okCatalogClient rfl
    (by norm_num [pmiQuantityChange])]
  rfl

/-- C6 counterexample: the material-edit save path (`updateMaterial`) applied
to scenario D — lowering `totalWeight` from 100 to 70 while
`weightCommitted = 80` — succeeds and mutates state, leaving
`totalWeight < weightCommitted`, instead of being rejected. -/
theorem material_edit_unguarded_counterexample :
    (updateMaterialTotalWeight scenarioD 70).material.totalWeight = 70 ∧
    (updateMaterialTotalWeight scenarioD 70).material.weightCommitted = 80 ∧
    (updateMaterialTotalWeight scenarioD 70).material.totalWeight <
      (updateMaterialTotalWeight scenarioD 70).material.weightCommitted := by
  refine ⟨rfl, rfl, ?_⟩
  norm_num [updateMaterialTotalWeight, scenarioD]

/-- C6 amended: the manual stock-adjustment action enforces exactly the
claimed guard — a negative delta whose magnitude exceeds
`totalWeight - weightCommitted` is rejected with `Cannot reduce total weight
below committed amount` and nothing is mutated, every other nonzero delta
adds to `totalWeight` and records an `ADJUSTMENT` movement — but the
material-edit save path (`updateMaterial`) writes `totalWeight`
unconditionally, with no validation and no movement. -/
theorem adjust_guard_amended (s : LedgerState) (vid : Option String) (d : ℚ)
    (hd : d ≠ 0) :
    (d < 0 → s.material.totalWeight - s.material.weightCommitted < -d →
      adjustStockAction s vid d = .error "Cannot reduce total weight below committed amount" ∧
      adjustStockStep s vid d = (s, false)) ∧
    ((0 ≤ d ∨ -d ≤ s.material.totalWeight - s.material.weightCommitted) →
      adjustStockAction s vid d =
        .ok { material := { s.material with totalWeight := s.material.totalWeight + d },
              movements := s.movements ++
                [{ type := .ADJUSTMENT, quantityChange := d,
                   remainingStock := s.material.totalWeight + d,
                   variantId := vid, orderId := none }] }) ∧
    (∀ newTotal : ℚ,
      (updateMaterialTotalWeight s newTotal).material.totalWeight = newTotal ∧
      (updateMaterialTotalWeight s newTotal).material.weightCommitted
        = s.material.weightCommitted ∧
      (updateMaterialTotalWeight s newTotal).movements = s.movements) := by
  refine ⟨?_, ?_, fun newTotal => ⟨rfl, rfl, rfl⟩⟩
  · intro hneg havail
    have habs : |d| = -d := abs_of_neg hneg
    have hcond : d < 0 ∧ s.material.totalWeight - s.material.weightCommitted < |d| :=
      ⟨hneg, by rw [habs]; exact havail⟩
    constructor
    · simp [adjustStockAction, hd, hcond]
    · simp [adjustStockStep, adjustStockAction, hd, hcond]
  · intro hok
    have hcond : ¬ (d < 0 ∧ s.material.totalWeight - s.material.weightCommitted < |d|) := by
      rcases hok with h0 | hle
      · exact fun hc => absurd hc.1 (not_lt.mpr h0)
      · intro hc
        rw [abs_of_neg hc.1] at hc
        exact absurd hle (not_le.mpr hc.2)
    simp [adjustStockAction, hd, hcond]

/-- C6 witness: scenario D — `adjust(-30)` on `totalWeight = 100`,
`weightCommitted = 80` is rejected without mutation, `adjust(-10)` succeeds
and yields `totalWeight = 90`. -/
theorem adjust_guard_amended_witness :
    adjustStockAction scenarioD none (-30)
      = .error "Cannot reduce total weight below committed amount" ∧
    adjustStockStep scenarioD none (-30) = (scenarioD, false) ∧
    adjustStockAction scenarioD none (-10)
      = .ok { material := { totalWeight := 90, weightCommitted := 80, threshold := none },
              movements := [{ type := .ADJUSTMENT, quantityChange := -10,
                              remainingStock := 90, variantId := none, orderId := none }] } := by
  have hrej := (adjust_guard_amended scenarioD none (-30) (by norm_num)).1
    (by norm_num) (by norm_num [scenarioD])
  have hok := (adjust_guard_amended scenarioD none (-10) (by norm_num)).2.1
    (Or.inr (by norm_num [scenarioD]))
  refine ⟨hrej.1, hrej.2, ?_⟩
  rw [hok]
  norm_num [scenarioD]

/-- Appending one movement to a history replays as one extra step. -/
theorem replayMovements_append (l : List StockMovement) (mv : StockMovement) :
    replayMovements (l ++ [mv]) = replayMovement (replayMovements l) mv := by
  simp [replayMovements, List.foldl_append]

/-- A trace hitting the sign and coverage defects of the movement log:
create (INITIAL 100), commit 75 (ORDER_CREATED +75), cancel 75
(CANCELLED +75), then a material edit lowering `totalWeight` to 70 (no
movement at all). -/
def conservationTrace : LedgerState :=
  updateMaterialTotalWeight
    (cancelLineItem (orderCreatedStep (createMaterialState 100 (some 10)) "V" none 5 15).1
      "V" none 5 15)
    70

/-- C5 counterexample: on `conservationTrace` the claim's summation — each
movement's `quantityChange` added to the counter its kind affects — yields
`(100, 150)` while the material's stored counters are `(70, 0)`: the
`CANCELLED` movement stores `+75` although `weightCommitted` *decreased* by
75, and the material edit changed `totalWeight` without recording any
movement. -/
theorem conservation_counterexample :
    conservationTrace.material.totalWeight = 70 ∧
    conservationTrace.material.weightCommitted = 0 ∧
    sumMovements conservationTrace.movements = (100, 150) ∧
    sumMovements conservationTrace.movements ≠
      (conservationTrace.material.totalWeight, conservationTrace.material.weightCommitted) := by
  refine ⟨?_, ?_, ?_, ?_⟩ <;>
    norm_num [conservationTrace, updateMaterialTotalWeight, cancelLineItem,
      orderCreatedStep, commitLineItem, createMaterialState, sumMovements, sumMovement,
      Prod.ext_iff]

/-- C5 amended: over traces built from the webhook and manual-adjustment
handlers (material edits through `updateMaterial` excluded, since they write
no movement), replaying the movement log from the `INITIAL` movement — with a
`CANCELLED` movement applied at the *opposite* sign of its stored
`quantityChange` — reproduces both counters exactly. -/
theorem conservation_amended (w : ℚ) (thr : Option ℚ) (ops : List LedgerOp) :
    replayMovements (runOps (createMaterialState w thr) ops).movements =
      ((runOps (createMaterialState w thr) ops).material.totalWeight,
       (runOps (createMaterialState w thr) ops).material.weightCommitted) := by
  have key : ∀ (rest : List LedgerOp) (s : LedgerState),
      replayMovements s.movements = (s.material.totalWeight, s.material.weightCommitted) →
      replayMovements (runOps s rest).movements =
        ((runOps s rest).material.totalWeight, (runOps s rest).material.weightCommitted) := by
    intro rest
    induction rest with
    | nil => intro s hs; simpa [runOps] using hs
    | cons op rest ih =>
      intro s hs
      have hstep : replayMovements (applyOp s op).movements =
          ((applyOp s op).material.totalWeight, (applyOp s op).material.weightCommitted) := by
        cases op with
        | commit vid oid cr q =>
          by_cases hc : s.material.totalWeight < s.material.weightCommitted + cr * q
          · simpa [applyOp, orderCreatedStep, commitLineItem, hc] using hs
          · simp [applyOp, orderCreatedStep, commitLineItem, hc,
              replayMovements_append, replayMovement, hs]
        | fulfill vid oid cr q =>
          simp [applyOp, fulfillLineItem, replayMovements_append, replayMovement, hs,
            Prod.ext_iff]
          ring
        | cancel vid oid cr q =>
          simp [applyOp, cancelLineItem, replayMovements_append, replayMovement, hs]
        | adjust vid d =>
          by_cases h0 : d = 0
          · simpa [applyOp, adjustStockStep, adjustStockAction, h0] using hs
          · by_cases hg : d < 0 ∧
                s.material.totalWeight - s.material.weightCommitted < |d|
            · simpa [applyOp, adjustStockStep, adjustStockAction, h0, hg] using hs
            · simp [applyOp, adjustStockStep, adjustStockAction, h0, hg,
                replayMovements_append, replayMovement, hs]
      have hrun : runOps s (op :: rest) = runOps (applyOp s op) rest := by
        simp [runOps]
      rw [hrun]
      exact ih (applyOp s op) hstep
  exact key ops (createMaterialState w thr)
    (by simp [createMaterialState, replayMovements, replayMovement])

/-- A set-quantity attempt sequence that always reports a concurrency
conflict. -/
def concurrentConflictAttempts : Nat → SetQuantityRes :=
  fun _ => .userErrors true "concurrent modification detected"

/-- A set-quantity attempt sequence that always throws (network failure,
GraphQL errors field, or any non-concurrency user error — all reach the
loop's catch block). -/
def fatalAttempts : Nat → SetQuantityRes :=
  fun _ => .thrown "internal error"

/-- Non-concurrency failure at the first attempt, success at the second. -/
def fatalThenOkAttempts : Nat → SetQuantityRes :=
  fun n => if n = 0 then .thrown "internal error" else .ok

/-- A catalog client whose set-quantity write always fails fatally. -/
def failingCatalogClient : CatalogClient :=
  { variantQuery := .found, levelQuery := .present (some 0), activate := .created,
    setQuantity := fatalAttempts }

/-- The retry loop never runs more than `retryCount + fuel` attempts. -/
theorem setQuantityLoopGo_attempts_le (client : Nat → SetQuantityRes) :
    ∀ (fuel retryCount : Nat) (backoffs : List Nat),
      (setQuantityLoopGo client fuel retryCount backoffs).attempts ≤ retryCount + fuel := by
  intro fuel
  induction fuel with
  | zero =>
    intro rc b
    simp [setQuantityLoopGo]
  | succ n ih =>
    intro rc b
    rw [setQuantityLoopGo]
    cases h : client rc with
    | ok => simp
    | userErrors concurrent msg =>
      by_cases h1 : concurrent = true ∧ rc < MAX_RETRIES - 1
      · simp only [if_pos h1]
        exact le_trans (ih _ _) (by omega)
      · simp only [if_neg h1]
        by_cases h2 : MAX_RETRIES - 1 ≤ rc
        · simp only [if_pos h2]; simp
        · simp only [if_neg h2]
          exact le_trans (ih _ _) (by omega)
    | thrown msg =>
      by_cases h2 : MAX_RETRIES - 1 ≤ rc
      · simp only [if_pos h2]; simp
      · simp only [if_neg h2]
        exact le_trans (ih _ _) (by omega)

/-- C7 counterexample: a *non-concurrency* failure of the compare-and-set
write (a thrown error at attempt 0) does not abort immediately — the loop's
catch block retries it after a 2-second backoff and the second attempt
succeeds, so 2 attempts run where the claim requires exactly 1. -/
theorem nonconcurrency_error_is_retried_counterexample :
    (setQuantityLoop fatalThenOkAttempts).attempts = 2 ∧
    (setQuantityLoop fatalThenOkAttempts).backoffsMs = [2000] ∧
    (setQuantityLoop fatalThenOkAttempts).result = .ok () := by
  refine ⟨rfl, rfl, rfl⟩

/-- C7 amended: at most `MAX_RETRIES = 3` set-quantity attempts ever run;
pure concurrency conflicts are retried with backoffs `2^attempt` seconds
(1000 ms, 2000 ms) and exhaustion surfaces the user-error message; errors
*thrown during an attempt* (including non-concurrency user errors, which are
converted to throws) are retried the same bounded way but with backoffs
`2^(attempt+1)` seconds (2000 ms, 4000 ms); only failures in steps 1–3,
before the set-quantity loop, abort with no retry; and an exhausted retry
still leaves `processMaterialAndInventory` returning `.ok` with the mutated
balance — the ledger transaction is not rolled back. -/
theorem catalog_retry_amended :
    (∀ client : Nat → SetQuantityRes, (setQuantityLoop client).attempts ≤ MAX_RETRIES) ∧
    ((setQuantityLoop concurrentConflictAttempts).attempts = 3 ∧
     (setQuantityLoop concurrentConflictAttempts).backoffsMs = [1000, 2000] ∧
     (setQuantityLoop concurrentConflictAttempts).result =
       .error "Failed to set quantity: concurrent modification detected") ∧
    ((setQuantityLoop fatalAttempts).attempts = 3 ∧
     (setQuantityLoop fatalAttempts).backoffsMs = [2000, 4000] ∧
     (setQuantityLoop fatalAttempts).result = .error "internal error") ∧
    (updateShopifyInventoryCore
        { variantQuery := .noInventoryItem, levelQuery := .present (some 0),
          activate := .created, setQuantity := fun _ => .ok }
      = .error "No inventory item found for variant") ∧
    (processMaterialAndInventory (some ⟨100, [⟨"A", 5⟩]⟩) "A" 2 .FULFILLMENT
        failingCatalogClient
      = .ok { runningBalance := 90,
              movement := { type := .FULFILLMENT, quantityChange := -10,
                            remainingStock := 90, variantId := some "A", orderId := none },
              inventoryUpdated := false, isOutOfStock := false,
              error := some "internal error" }) := by
  refine ⟨?_, ⟨rfl, rfl, rfl⟩, ⟨rfl, rfl, rfl⟩, rfl, ?_⟩
  · intro client
    simpa [setQuantityLoop, MAX_RETRIES] using
      setQuantityLoopGo_attempts_le client MAX_RETRIES 0 []
  · have hfail : updateShopifyInventory failingCatalogClient false =
        { inventoryUpdated := false, isOutOfStock := false, error := some "internal error" } :=
      rfl
    norm_num [processMaterialAndInventory, pmiQuantityChange, hfail, PMIType.toMovementType]

/-- A material shared by two variants: `totalWeight = 100`, no commitments,
`threshold = 10`. -/
def scenarioShared : LedgerState :=
  { material := { totalWeight := 100, weightCommitted := 0, threshold := some 10 },
    movements := [] }

/-- The service-layer view of a shared material: `runningBalance = 5`,
variant `A` consuming 19 per unit, variant `B` consuming 2 per unit. -/
def sharedRB : RBMaterial := ⟨5, [⟨"A", 19⟩, ⟨"B", 2⟩]⟩

/-- C8 counterexample: fulfilling variant `A` (consumption 19, quantity 5) on
`scenarioShared` drops `totalWeight` to 5, at or below the threshold, and the
fulfilled webhook pushes an availability update for the triggering variant
`A` only — no sibling variant (such as a `B` linked to the same material)
is ever pushed by this path. -/
theorem sibling_variants_not_pushed_counterexample :
    fulfilledWebhookPushes scenarioShared "A" 19 5 = [("A", false)] ∧
    ∀ p ∈ fulfilledWebhookPushes scenarioShared "A" 19 5, p.1 ≠ "B" := by
  have h : fulfilledWebhookPushes scenarioShared "A" 19 5 = [("A", false)] := by
    norm_num [fulfilledWebhookPushes, fulfillLineItem, scenarioShared]
  refine ⟨h, ?_⟩
  rw [h]
  simp

/-- C8 amended: only `checkAndUpdateVariantAvailability` recomputes and
pushes the verdict (`runningBalance >= consumptionRequirement`) for *every*
variant linked to the material — one pair per variant; the fulfilled-webhook
path pushes at most one pair, always for the triggering variant and always
`availableForSale = false`. -/
theorem availability_push_amended (material : RBMaterial) :
    (checkAndUpdateVariantAvailability material).length = material.variants.length ∧
    (∀ v ∈ material.variants,
      (v.variantId,
        if v.consumptionRequirement ≤ material.runningBalance then true else false) ∈
          checkAndUpdateVariantAvailability material) ∧
    (∀ (s : LedgerState) (vid : String) (cr q : ℚ) (p : String × Bool),
      p ∈ fulfilledWebhookPushes s vid cr q → p = (vid, false)) := by
  refine ⟨by simp [checkAndUpdateVariantAvailability], ?_, ?_⟩
  · intro v hv
    exact List.mem_map.mpr ⟨v, hv, rfl⟩
  · intro s vid cr q p hp
    unfold fulfilledWebhookPushes at hp
    by_cases hc : (fulfillLineItem s vid none cr q).material.totalWeight ≤
        (fulfillLineItem s vid none cr q).material.threshold.getD 0
    · rw [if_pos hc] at hp
      simpa using hp
    · rw [if_neg hc] at hp
      simp at hp

/-- C8 witness: on `sharedRB` (balance 5) the service-layer push covers both
variants — `A` (consumption 19) unsellable, `B` (consumption 2) sellable —
while the fulfilled-webhook path on `scenarioShared` pushes only the
triggering pair. -/
theorem availability_push_amended_witness :
    (checkAndUpdateVariantAvailability sharedRB).length = 2 ∧
    ("B", true) ∈ checkAndUpdateVariantAvailability sharedRB ∧
    (("A", false) : String × Bool) = ("A", false) := by
  refine ⟨?_, ?_, ?_⟩
  · rw [(availability_push_amended sharedRB).1]
    rfl
  · have h := (availability_push_amended sharedRB).2.1 ⟨"B", 2⟩ (by simp [sharedRB])
    simpa [sharedRB] using h
  · refine (availability_push_amended sharedRB).2.2 scenarioShared "A" 19 5 ("A", false) ?_
    have h : fulfilledWebhookPushes scenarioShared "A" 19 5 = [("A", false)] := by
      norm_num [fulfilledWebhookPushes, fulfillLineItem, scenarioShared]
    rw [h]
    simp

/-- C9: an accepted commit of `cr * q` raises only `weightCommitted`, and the
cancellation of the same line item brings `weightCommitted` back to its value
before the commit while `totalWeight` is unchanged throughout. -/
theorem commit_restore_round_trip (s s' : LedgerState) (vid vid' : String)
    (oid oid' : Option String) (cr q : ℚ)
    (h : commitLineItem s vid oid cr q = .ok s') :
    s'.material.totalWeight = s.material.totalWeight ∧
    (cancelLineItem s' vid' oid' cr q).material.totalWeight = s.material.totalWeight ∧
    (cancelLineItem s' vid' oid' cr q).material.weightCommitted
      = s.material.weightCommitted := by
  by_cases hc : s.material.totalWeight < s.material.weightCommitted + cr * q
  · simp [commitLineItem, hc] at h
  · simp only [commitLineItem, if_neg hc, Except.ok.injEq] at h
    subst h
    refine ⟨rfl, rfl, ?_⟩
    simp [cancelLineItem]

/-- A freshly registered material with `totalWeight = 100` and no threshold. -/
def freshHundred : LedgerState := createMaterialState 100 none

/-- The state the order-created webhook stores after committing 75 against
`freshHundred`. -/
def committedAfter : LedgerState :=
  { material := { totalWeight := 100, weightCommitted := 75, threshold := none },
    movements := [{ type := .INITIAL, quantityChange := 100, remainingStock := 100,
                    variantId := none, orderId := none },
                  { type := .ORDER_CREATED, quantityChange := 75, remainingStock := 100,
                    variantId := some "V", orderId := none }] }

/-- C9 witness: scenario C — commit 75 on a fresh 100 kg material, cancel the
same line item, `weightCommitted` returns to 0 and `totalWeight` stays
100. -/
theorem commit_restore_round_trip_witness :
    commitLineItem freshHundred "V" none 5 15 = .ok committedAfter ∧
    (cancelLineItem committedAfter "V" none 5 15).material.weightCommitted = 0 ∧
    (cancelLineItem committedAfter "V" none 5 15).material.totalWeight = 100 := by
  have hc : commitLineItem freshHundred "V" none 5 15 = .ok committedAfter := by
    norm_num [commitLineItem, freshHundred, createMaterialState, committedAfter]
  have h := commit_restore_round_trip freshHundred committedAfter "V" "V" none none 5 15 hc
  refine ⟨hc, ?_, ?_⟩
  · rw [h.2.2]; rfl
  · rw [h.2.1]; rfl

/-- C10: `updateShopifyInventory` is total over every injected client
behaviour — it echoes back the `isOutOfStock` verdict it was invoked with,
and it reports `inventoryUpdated = false` exactly when it carries an error;
consequently `processMaterialAndInventory` can only fail on its two lookup
errors, never because of the catalog. -/
theorem catalog_failure_isolated (client : CatalogClient) (flag : Bool)
    (materialOpt : Option RBMaterial) (variantId : String) (q : ℚ) (ty : PMIType) :
    (updateShopifyInventory client flag).isOutOfStock = flag ∧
    ((updateShopifyInventory client flag).inventoryUpdated = false ↔
      ((updateShopifyInventory client flag).error).isSome) ∧
    (∀ msg, processMaterialAndInventory materialOpt variantId q ty client = .error msg →
      msg = "Material not found" ∨ msg = "Variant not linked to material") := by
  refine ⟨?_, ?_, ?_⟩
  · cases h : updateShopifyInventoryCore client <;> simp [updateShopifyInventory, h]
  · cases h : updateShopifyInventoryCore client <;> simp [updateShopifyInventory, h]
  · intro msg hmsg
    unfold processMaterialAndInventory at hmsg
    cases materialOpt with
    | none =>
      simp only [Except.error.injEq] at hmsg
      exact Or.inl hmsg.symm
    | some material =>
      cases hf : material.variants.find? (fun v => v.variantId == variantId) with
      | none =>
        simp only [hf, Except.error.injEq] at hmsg
        exact Or.inr hmsg.symm
      | some variant =>
        simp only [hf] at hmsg
        by_cases hneg : material.runningBalance
            + pmiQuantityChange ty q * variant.consumptionRequirement < 0
        · rw [if_pos hneg] at hmsg
          cases hmsg
        · rw [if_neg hneg] at hmsg
          cases hmsg

/-- C10 witness: with an all-green client the out-of-stock verdict is echoed
back, and a missing material is one of the two lookup errors. -/
theorem catalog_failure_isolated_witness :
    (updateShopifyInventory okCatalogClient true).isOutOfStock = true ∧
    ("Material not found" = "Material not found" ∨
      "Material not found" = "Variant not linked to material") := by
  refine ⟨(catalog_failure_isolated okCatalogClient true none "V" 1 .FULFILLMENT).1, ?_⟩
  exact (catalog_failure_isolated okCatalogClient true none "V" 1 .FULFILLMENT).2.2
    "Material not found" rfl

end WeightManagement
